import Mathlib

/-!
Verification of the Chinese memorial-dates calendar generator
(`src/chinese_memorial_calendar.py`).

Solar dates are represented at day granularity by an integer ordinal
(days since the civil epoch 0000-03-01); the conversion between
year/month/day and ordinals follows the standard civil-calendar
algorithm.  The lunar/solar conversion is delegated by the source to an
external lunar-calendar library, modelled here as a lookup in a
reference month table; event construction is delegated to an external
calendar-event library, modelled per the documented all-day-event
contract.
-/

/-- Solar (Gregorian) calendar date as year, month, day. -/
structure Date where
  year : Int
  month : Int
  day : Int
deriving Repr, DecidableEq

/-- Ordinal day number of a civil date (days since 0000-03-01),
standard civil-from-calendar conversion. -/
def toOrd (dt : Date) : Int :=
  let y : Int := if dt.month ≤ 2 then dt.year - 1 else dt.year
  let era : Int := (if 0 ≤ y then y else y - 399) / 400
  let yoe : Int := y - era * 400
  let mp : Int := (dt.month + 9) % 12
  let doy : Int := (153 * mp + 2) / 5 + dt.day - 1
  let doe : Int := yoe * 365 + yoe / 4 - yoe / 100 + doy
  era * 146097 + doe

/-- Civil date of an ordinal day number, inverse of `toOrd`. -/
def fromOrd (z : Int) : Date :=
  let era : Int := (if 0 ≤ z then z else z - 146096) / 146097
  let doe : Int := z - era * 146097
  let yoe : Int := (doe - doe / 1460 + doe / 36524 - doe / 146096) / 365
  let y : Int := yoe + era * 400
  let doy : Int := doe - (365 * yoe + yoe / 4 - yoe / 100)
  let mp : Int := (5 * doy + 2) / 153
  let d : Int := doy - (153 * mp + 2) / 5 + 1
  let m : Int := if mp < 10 then mp + 3 else mp - 9
  ⟨if m ≤ 2 then y + 1 else y, m, d⟩

/-- Solar year in which an ordinal day falls. -/
def yearOfOrd (z : Int) : Int := (fromOrd z).year

/-- An all-day calendar event: `begin` is the first day, `endDate` the
exclusive end (day after the last covered day), as in the source's
`ics.Event` with begin/end at midnight. -/
structure Event where
  name : String
  begin : Int
  endDate : Int
  description : String
deriving Repr, DecidableEq

/-- Error taxonomy of the resolver and event builder (spec section 7). -/
inductive CalError where
  | invalidLunarDate
  | invalidRange
deriving Repr, DecidableEq

/-- Embedding of `_create_multiday_event`: begin is the start day, end is
the day after the last day.  Modelled from the spec: the range check is
performed by the external ics library when the end is assigned (not by
code under src); per the spec's builder contract the construction
requires `end_date_inclusive >= start_date` and fails with
`InvalidRange` otherwise. -/
def createMultidayEvent (name : String) (startDate endDate : Int)
    (description : String) : Except CalError Event :=
  if endDate < startDate then
    .error .invalidRange
  else
    .ok ⟨name, startDate, endDate + 1, description⟩

/-- Embedding of `_create_event`: an all-day single-day event.  Modelled
from the spec: the external ics library's `make_all_day` gives the event
a one-day span, `end_date_exclusive = date + 1 day`. -/
def createEvent (name : String) (date : Int) (description : String) : Event :=
  ⟨name, date, date + 1, description⟩

/-- Description text of the Qingming event (source lines 80-87). -/
def qingmingDesc : String :=
  "清明节 - Qingming Festival\nTraditional tomb sweeping and ancestral worship day.\nTraditional offerings include:\n- Incense (香)\n- Fresh flowers (鲜花)\n- Food offerings (食品)"

/-- Description text of the Winter Solstice event (source lines 93-97). -/
def winterSolsticeDesc : String :=
  "冬至 - Winter Solstice\nTraditional family reunion day with ancestral remembrance.\nCommon practices include family gathering and special meals."

/-- Embedding of `generate_solar_calendar_events`: Qingming on April 5
and Winter Solstice on December 22 of the target year, in that order. -/
def generateSolarCalendarEvents (year : Int) : List (String × Event) :=
  [("qingming.ics",
    createEvent "Qingming Festival 清明节" (toOrd ⟨year, 4, 5⟩) qingmingDesc),
   ("winter_solstice.ics",
    createEvent "Winter Solstice 冬至" (toOrd ⟨year, 12, 22⟩) winterSolsticeDesc)]

/-- Modelled from the spec: one month of the reference lunar-calendar
conversion table (the table lives in the external lunar-calendar
library, not under src).  A slot records the lunar year, the month
number, whether it is a leap month, the ordinal of its first solar day,
and its length in days (29 or 30). -/
structure LunarMonthSlot where
  year : Int
  month : Nat
  isLeap : Bool
  startOrd : Int
  len : Nat
deriving Repr, DecidableEq

/-- A reference lunar-calendar conversion table. -/
abbrev LunarTable := List LunarMonthSlot

/-- Modelled from the spec: `lunar_to_solar` via the external
lunar-calendar library.  Looks up the (non-leap) month of the given
lunar year in the reference table and offsets by the day; fails with
`InvalidLunarDate` when the requested day does not exist in that month
(for example day 30 of a 29-day month). -/
def lunarToSolar (tbl : LunarTable) (month day : Nat) (year : Int) :
    Except CalError Int :=
  match tbl.find? (fun s => s.year == year && s.month == month && !s.isLeap) with
  | none => .error .invalidLunarDate
  | some s =>
    if 1 ≤ day ∧ day ≤ s.len then .ok (s.startOrd + (day : Int) - 1)
    else .error .invalidLunarDate

/-- Modelled from the spec: `solar_to_lunar` via the external
lunar-calendar library.  Finds the month slot containing the solar
ordinal and returns (month, day, year, is_leap_month). -/
def solarToLunar (tbl : LunarTable) (ord : Int) :
    Except CalError (Nat × Nat × Int × Bool) :=
  match tbl.find? (fun s => decide (s.startOrd ≤ ord ∧ ord < s.startOrd + (s.len : Int))) with
  | none => .error .invalidLunarDate
  | some s => .ok (s.month, (ord - s.startOrd + 1).toNat, s.year, s.isLeap)

/-- Two table slots cover disjoint ranges of solar days. -/
def slotsDisjoint (a b : LunarMonthSlot) : Bool :=
  decide (a.startOrd + (a.len : Int) ≤ b.startOrd ∨ b.startOrd + (b.len : Int) ≤ a.startOrd)

/-- Well-formedness of a reference table: the month slots cover pairwise
disjoint ranges of solar days. -/
def wfCheck : LunarTable → Bool
  | [] => true
  | s :: rest => rest.all (fun t => slotsDisjoint s t) && wfCheck rest

/-- Modelled from the spec: entries of the reference lunar-calendar
conversion table for the lunar years exercised by the claims.  Lunar
month 7 of 2022 begins on solar 2022-07-29 and has 29 days; lunar month
1 of 2024 begins on 2024-02-10 (Chinese New Year 2024); lunar month 7 of
2024 begins on 2024-08-04 and has 30 days; lunar month 1 of 2025 begins
on 2025-01-29; lunar month 7 of 2025 begins on 2025-08-23 and has 30
days. -/
def refTable : LunarTable :=
  [⟨2022, 7, false, toOrd ⟨2022, 7, 29⟩, 29⟩,
   ⟨2024, 1, false, toOrd ⟨2024, 2, 10⟩, 29⟩,
   ⟨2024, 7, false, toOrd ⟨2024, 8, 4⟩, 30⟩,
   ⟨2025, 1, false, toOrd ⟨2025, 1, 29⟩, 30⟩,
   ⟨2025, 7, false, toOrd ⟨2025, 8, 23⟩, 30⟩]

/-- Description text of the Ghost Month event (source lines 110-124). -/
def ghostMonthDesc : String :=
  "中元节 - Ghost Month (鬼月)\nThe entire 7th lunar month is the Ghost Month, with the 15th day being the Ghost Festival peak.\nTraditional practices include:\n- Making offerings to ancestors and wandering spirits\n- Burning joss paper and incense\n- Avoiding major life changes or events\n\nPeak Day (15th): 中元节\nTraditional offerings include:\n- Incense (香)\n- Food offerings (食品)\n- Joss paper (纸钱)\n- Fruits (水果)\n- Tea (茶)"

/-- Description text of the Chinese New Year's Eve event (source lines 135-143). -/
def nyeDesc : String :=
  "除夕 - Chinese New Year's Eve\nTraditional family reunion dinner.\nCustom includes leaving an empty seat and chopsticks for deceased family members.\nTraditional practices include:\n- Family reunion dinner\n- Ancestral worship\n- Setting out offerings"

/-- Embedding of `generate_lunar_calendar_events`: the Ghost Month
multi-day event from lunar (7,1) to lunar (7,30) of the target year,
then Chinese New Year's Eve as the day before lunar (1,1) of the target
year.  The source requests lunar day 30 unconditionally and performs no
month-length detection; a failed conversion propagates. -/
def generateLunarCalendarEvents (tbl : LunarTable) (year : Int) :
    Except CalError (List (String × Event)) :=
  match lunarToSolar tbl 7 1 year with
  | .error e => .error e
  | .ok ghostMonthStart =>
    match lunarToSolar tbl 7 30 year with
    | .error e => .error e
    | .ok ghostMonthEnd =>
      match createMultidayEvent "Ghost Month 鬼月" ghostMonthStart ghostMonthEnd ghostMonthDesc with
      | .error e => .error e
      | .ok ghost =>
        match lunarToSolar tbl 1 1 year with
        | .error e => .error e
        | .ok newYearDate =>
          .ok [("ghost_month.ics", ghost),
               ("chinese_new_year_eve.ics",
                createEvent "Chinese New Year's Eve 除夕" (newYearDate - 1) nyeDesc)]

/-- A raw anniversary config entry: every field may be absent
(a missing required field raises `KeyError` in the source). -/
structure RawAnniversary where
  name : Option String
  chinese_name : Option String
  lunar_month : Option Nat
  lunar_day : Option Nat
  notes : Option String
deriving Repr, DecidableEq

/-- A loaded anniversary record with optional fields defaulted, as built
by `load_anniversaries_config` (source lines 162-168). -/
structure Anniversary where
  name : String
  chinese_name : String
  lunar_month : Nat
  lunar_day : Nat
  notes : String
deriving Repr, DecidableEq

/-- Embedding of one iteration of the ingestion loop: the entry is kept
when the required fields `name`, `lunar_month`, `lunar_day` are all
present (`chinese_name` and `notes` default to the empty string);
a missing required field makes the whole entry fail. -/
def processAnniversaryEntry (r : RawAnniversary) : Option Anniversary :=
  match r.name, r.lunar_month, r.lunar_day with
  | some n, some m, some d => some ⟨n, r.chinese_name.getD "", m, d, r.notes.getD ""⟩
  | _, _, _ => none

/-- Embedding of the per-entry loop of `load_anniversaries_config`:
returns the retained records in config order and the number of
skipped-entry warnings printed. -/
def loadAnniversariesConfig : List RawAnniversary → List Anniversary × Nat
  | [] => ([], 0)
  | r :: rest =>
    let acc := loadAnniversariesConfig rest
    match processAnniversaryEntry r with
    | some a => (a :: acc.1, acc.2)
    | none => (acc.1, acc.2 + 1)

/-- Event title of an anniversary record: the name, with the Chinese
name in parentheses when present (source lines 184-186). -/
def anniversaryTitle (a : Anniversary) : String :=
  if a.chinese_name ≠ "" then a.name ++ " (" ++ a.chinese_name ++ ")" else a.name

/-- Description text of an anniversary event (source lines 188-192). -/
def anniversaryDescription (a : Anniversary) : String :=
  anniversaryTitle a ++ "\nLunar Date: " ++ toString a.lunar_month ++ "月" ++
    toString a.lunar_day ++ "日\n\nNotes: " ++ a.notes ++ "\n"

/-- Sanitized filename of an anniversary event (source lines 195-196). -/
def anniversaryFilename (a : Anniversary) : String :=
  ((("anniversary_" ++ a.name ++ ".ics").toLower).replace " " "_").replace "'" ""

/-- Embedding of `generate_anniversary_events`: one single-day event per
record, in record order; a failed lunar conversion propagates. -/
def generateAnniversaryEvents (tbl : LunarTable) (year : Int) :
    List Anniversary → Except CalError (List (String × Event))
  | [] => .ok []
  | a :: rest =>
    match lunarToSolar tbl a.lunar_month a.lunar_day year with
    | .error e => .error e
    | .ok date =>
      match generateAnniversaryEvents tbl year rest with
      | .error e => .error e
      | .ok evs =>
        .ok ((anniversaryFilename a,
              createEvent (anniversaryTitle a) date (anniversaryDescription a)) :: evs)

/-- Embedding of `generate_calendars`: the solar fixed events, then the
lunar events, then the anniversary events, concatenated in that order
(source lines 206-208). -/
def generateCalendars (tbl : LunarTable) (year : Int) (anns : List Anniversary) :
    Except CalError (List (String × Event)) :=
  match generateLunarCalendarEvents tbl year with
  | .error e => .error e
  | .ok lunar =>
    match generateAnniversaryEvents tbl year anns with
    | .error e => .error e
    | .ok annEvents => .ok (generateSolarCalendarEvents year ++ lunar ++ annEvents)

/-- The disjointness relation on table slots is symmetric. -/
theorem slotsDisjoint_symm :
    Symmetric (fun a b : LunarMonthSlot => slotsDisjoint a b = true) := by
  intro a b h
  simp only [slotsDisjoint, decide_eq_true_eq] at h ⊢
  exact h.symm

/-- A table passing `wfCheck` has pairwise disjoint slots. -/
theorem wfCheck_pairwise {tbl : LunarTable} (h : wfCheck tbl = true) :
    tbl.Pairwise (fun a b => slotsDisjoint a b = true) := by
  induction tbl with
  | nil => exact List.Pairwise.nil
  | cons s rest ih =>
    simp only [wfCheck, Bool.and_eq_true, List.all_eq_true] at h
    exact List.Pairwise.cons (fun t ht => h.1 t ht) (ih h.2)

/-- In a well-formed table, the slot found for a successful
`lunarToSolar` call is the unique slot containing the resulting solar
ordinal. -/
theorem lunarToSolar_ok_slot {tbl : LunarTable} {m d : Nat} {y : Int} {o : Int}
    (h : lunarToSolar tbl m d y = .ok o) :
    ∃ sl ∈ tbl, sl.year = y ∧ sl.month = m ∧ sl.isLeap = false ∧
      1 ≤ d ∧ d ≤ sl.len ∧ o = sl.startOrd + (d : Int) - 1 := by
  unfold lunarToSolar at h
  cases hfind : tbl.find? (fun s => s.year == y && s.month == m && !s.isLeap) with
  | none => simp [hfind] at h
  | some sl =>
    simp only [hfind] at h
    have hpred := List.find?_some hfind
    simp only [Bool.and_eq_true, beq_iff_eq, Bool.not_eq_true'] at hpred
    have hmem := List.mem_of_find?_eq_some hfind
    by_cases hrange : 1 ≤ d ∧ d ≤ sl.len
    · rw [if_pos hrange] at h
      refine ⟨sl, hmem, hpred.1.1, hpred.1.2, hpred.2, hrange.1, hrange.2, ?_⟩
      exact ((Except.ok.injEq _ _).mp h).symm
    · rw [if_neg hrange] at h
      exact absurd h (by simp)

/-- Claim C3: for every valid lunar date (month 1..12, day 1..30) in a
year where the day exists in that lunar month of a well-formed reference
table, `solar_to_lunar` applied to `lunar_to_solar` returns the original
(month, day, year) triple (and a non-leap month marker). -/
theorem lunar_solar_roundtrip (tbl : LunarTable) (hwf : wfCheck tbl = true)
    (m d : Nat) (y : Int) (o : Int)
    (hm : 1 ≤ m ∧ m ≤ 12) (hd : 1 ≤ d ∧ d ≤ 30)
    (h : lunarToSolar tbl m d y = .ok o) :
    solarToLunar tbl o = .ok (m, d, y, false) := by
  obtain ⟨sl, hmem, hy, hmon, hleap, hd1, hdlen, ho⟩ := lunarToSolar_ok_slot h
  have hcontain : sl.startOrd ≤ o ∧ o < sl.startOrd + (sl.len : Int) := by omega
  unfold solarToLunar
  cases hfind : tbl.find? (fun s => decide (s.startOrd ≤ o ∧ o < s.startOrd + (s.len : Int))) with
  | none =>
    have := List.find?_eq_none.mp hfind sl hmem
    simp only [decide_eq_true_eq] at this
    exact absurd hcontain this
  | some f =>
    have hpredf := List.find?_some hfind
    simp only [decide_eq_true_eq] at hpredf
    have hmemf := List.mem_of_find?_eq_some hfind
    have hfeq : f = sl := by
      by_contra hne
      have hdisj := (wfCheck_pairwise hwf).forall slotsDisjoint_symm hmemf hmem hne
      simp only [slotsDisjoint, decide_eq_true_eq] at hdisj
      omega
    subst hfeq
    simp only [Except.ok.injEq, Prod.mk.injEq]
    refine ⟨hmon, ?_, hy, hleap⟩
    omega

/-- Claim C3, witness: for lunar (7, 15) of 2024 (Ghost Festival peak,
solar 2024-08-18) the roundtrip through the reference table returns the
original triple. -/
theorem lunar_solar_roundtrip_witness :
    wfCheck refTable = true ∧
      solarToLunar refTable (toOrd ⟨2024, 8, 18⟩) = .ok (7, 15, 2024, false) :=
  ⟨rfl, lunar_solar_roundtrip refTable rfl 7 15 2024 (toOrd ⟨2024, 8, 18⟩)
    (by decide) (by decide) rfl⟩

/-- A successful run of the lunar event generator determines the three
lunar conversions it performed and the exact shape of its output. -/
theorem generateLunarCalendarEvents_ok {tbl : LunarTable} {y : Int}
    {evs : List (String × Event)}
    (h : generateLunarCalendarEvents tbl y = .ok evs) :
    ∃ gs ge ny, lunarToSolar tbl 7 1 y = .ok gs ∧
      lunarToSolar tbl 7 30 y = .ok ge ∧
      lunarToSolar tbl 1 1 y = .ok ny ∧ gs ≤ ge ∧
      evs = [("ghost_month.ics", ⟨"Ghost Month 鬼月", gs, ge + 1, ghostMonthDesc⟩),
             ("chinese_new_year_eve.ics",
              ⟨"Chinese New Year's Eve 除夕", ny - 1, ny - 1 + 1, nyeDesc⟩)] := by
  unfold generateLunarCalendarEvents at h
  cases h1 : lunarToSolar tbl 7 1 y with
  | error e => simp [h1] at h
  | ok gs =>
    simp only [h1] at h
    cases h2 : lunarToSolar tbl 7 30 y with
    | error e => simp [h2] at h
    | ok ge =>
      simp only [h2] at h
      cases h3 : createMultidayEvent "Ghost Month 鬼月" gs ge ghostMonthDesc with
      | error e => simp [h3] at h
      | ok ghost =>
        simp only [h3] at h
        cases h4 : lunarToSolar tbl 1 1 y with
        | error e => simp [h4] at h
        | ok ny =>
          simp only [h4] at h
          unfold createMultidayEvent at h3
          by_cases hr : ge < gs
          · rw [if_pos hr] at h3; simp at h3
          · rw [if_neg hr] at h3
            have hghost := (Except.ok.injEq _ _).mp h3
            have hevs := ((Except.ok.injEq _ _).mp h).symm
            exact ⟨gs, ge, ny, rfl, rfl, rfl, by omega, by rw [hevs, ← hghost]; rfl⟩

/-- Claim C1 (amended): whenever the lunar event generation for target
year Y succeeds, the Chinese New Year's Eve event begins exactly one
solar day before `lunar_to_solar(1, 1, Y)`; and on the reference table
the resulting solar date's year equals Y itself (not Y - 1), since
lunar New Year falls in late January or February. -/
theorem nye_one_day_before_new_year (tbl : LunarTable) (y ny : Int)
    (hok : (generateLunarCalendarEvents tbl y).isOk = true)
    (hny : lunarToSolar tbl 1 1 y = .ok ny) :
    (generateLunarCalendarEvents tbl y).map
        (fun evs => (evs.map fun p => p.2.begin)[1]?) = .ok (some (ny - 1)) ∧
      (tbl = refTable → y = 2024 ∨ y = 2025 → yearOfOrd (ny - 1) = y) := by
  constructor
  · cases hgen : generateLunarCalendarEvents tbl y with
    | error e => rw [hgen] at hok; simp [Except.isOk, Except.toBool] at hok
    | ok evs =>
      obtain ⟨gs, ge, ny', h1, h2, h3, hle, hevs⟩ := generateLunarCalendarEvents_ok hgen
      rw [hny] at h3
      obtain rfl : ny = ny' := (Except.ok.injEq _ _).mp h3
      subst hevs
      rfl
  · rintro rfl hy
    rcases hy with rfl | rfl
    · have hv : lunarToSolar refTable 1 1 2024 = Except.ok (toOrd ⟨2024, 2, 10⟩) := rfl
      rw [hv] at hny
      obtain rfl := (Except.ok.injEq _ _).mp hny
      decide
    · have hv : lunarToSolar refTable 1 1 2025 = Except.ok (toOrd ⟨2025, 1, 29⟩) := rfl
      rw [hv] at hny
      obtain rfl := (Except.ok.injEq _ _).mp hny
      decide

/-- Claim C1, witness: for the reference table and target year 2024 the
eve event begins one day before lunar (1,1,2024) = 2024-02-10, and that
day (2024-02-09) lies in solar year 2024. -/
theorem nye_one_day_before_new_year_witness :
    (generateLunarCalendarEvents refTable 2024).map
        (fun evs => (evs.map fun p => p.2.begin)[1]?) =
      .ok (some (toOrd ⟨2024, 2, 10⟩ - 1)) ∧
      ((refTable : LunarTable) = refTable →
        (2024 : Int) = 2024 ∨ (2024 : Int) = 2025 →
        yearOfOrd (toOrd ⟨2024, 2, 10⟩ - 1) = 2024) :=
  nye_one_day_before_new_year refTable 2024 (toOrd ⟨2024, 2, 10⟩) (by rfl) (by rfl)

/-- Claim C1, counterexample: for target year 2024 the generated
Chinese New Year's Eve date (2024-02-09) lies in solar year 2024, not
in year 2024 - 1 as the claim states. -/
theorem nye_solar_year_counterexample :
    ∃ evs, generateLunarCalendarEvents refTable 2024 = .ok evs ∧
      ∃ p, evs[1]? = some p ∧ p.2.name = "Chinese New Year's Eve 除夕" ∧
        yearOfOrd p.2.begin = 2024 ∧ ¬ yearOfOrd p.2.begin = 2024 - 1 := by
  refine ⟨_, rfl, _, rfl, rfl, by decide, by decide⟩

/-- Claim C2 (code bug): in a year whose 7th lunar month has only 29
days (reference table: lunar year 2022), day 29 exists and resolves to
a solar date, but the generator requests lunar day 30 unconditionally
with no month-length detection, so the conversion fails and the whole
lunar event generation fails with `InvalidLunarDate` instead of ending
the Ghost Month window on day 29. -/
theorem ghost_month_day30_no_fallback :
    lunarToSolar refTable 7 29 2022 = .ok (toOrd ⟨2022, 8, 26⟩) ∧
      lunarToSolar refTable 7 30 2022 = .error .invalidLunarDate ∧
      generateLunarCalendarEvents refTable 2022 = .error .invalidLunarDate :=
  ⟨rfl, rfl, rfl⟩

/-- Claim C4: for every title, description, and pair of dates with
d1 ≤ d2, the multi-day builder produces an event whose exclusive end
minus its start is (d2 - d1) + 1 days. -/
theorem multiday_event_span (name : String) (d1 d2 : Int) (description : String)
    (h : d1 ≤ d2) :
    ∃ e, createMultidayEvent name d1 d2 description = .ok e ∧
      e.endDate - e.begin = (d2 - d1) + 1 := by
  refine ⟨⟨name, d1, d2 + 1, description⟩, ?_, ?_⟩
  · unfold createMultidayEvent
    rw [if_neg (by omega)]
  · show d2 + 1 - d1 = (d2 - d1) + 1
    omega

/-- Claim C4, witness: the Ghost Month window of 2024 (2024-08-04
through 2024-09-02 inclusive) spans its length plus one exclusive
day. -/
theorem multiday_event_span_witness :
    ∃ e, createMultidayEvent "Ghost Month 鬼月" (toOrd ⟨2024, 8, 4⟩)
        (toOrd ⟨2024, 9, 2⟩) ghostMonthDesc = .ok e ∧
      e.endDate - e.begin = (toOrd ⟨2024, 9, 2⟩ - toOrd ⟨2024, 8, 4⟩) + 1 :=
  multiday_event_span _ _ _ _ (by decide)

/-- Claim C5: for every input with the inclusive end date strictly
before the start date, the multi-day builder fails with `InvalidRange`
instead of producing an event. -/
theorem multiday_event_invalid_range (name : String) (d1 d2 : Int)
    (description : String) (h : d2 < d1) :
    createMultidayEvent name d1 d2 description = .error .invalidRange := by
  unfold createMultidayEvent
  rw [if_pos h]

/-- Claim C5, witness: a window ending the day before it starts is
rejected. -/
theorem multiday_event_invalid_range_witness :
    createMultidayEvent "Ghost Month 鬼月" (toOrd ⟨2024, 8, 4⟩)
        (toOrd ⟨2024, 8, 3⟩) ghostMonthDesc = .error .invalidRange :=
  multiday_event_invalid_range _ _ _ _ (by decide)

/-- Claim C6: for every title, date, and description, the single-day
builder produces an event whose exclusive end is exactly one day after
its start, so the event is never zero-duration. -/
theorem single_day_event_span (name : String) (date : Int) (description : String) :
    (createEvent name date description).endDate -
      (createEvent name date description).begin = 1 := by
  show date + 1 - date = 1
  omega

/-- Claim C7: for target year 2024 the generated Qingming Festival
event starts on solar 2024-04-05 with exclusive end 2024-04-06. -/
theorem qingming_2024 :
    ∃ p, (generateSolarCalendarEvents 2024)[0]? = some p ∧
      p.1 = "qingming.ics" ∧ p.2.name = "Qingming Festival 清明节" ∧
      p.2.begin = toOrd ⟨2024, 4, 5⟩ ∧ p.2.endDate = toOrd ⟨2024, 4, 6⟩ := by
  refine ⟨_, rfl, rfl, rfl, rfl, by decide⟩

/-- An entry whose `lunar_day` field is missing is rejected by the
ingestion loop. -/
theorem processAnniversaryEntry_none {e : RawAnniversary}
    (h : e.lunar_day = none) : processAnniversaryEntry e = none := by
  obtain ⟨n, c, m, d, t⟩ := e
  cases h
  cases n <;> cases m <;> rfl

/-- Claim C8: an anniversary config with one entry missing the required
`lunar_day` field and one well-formed entry yields exactly one retained
record (the well-formed one) and one warning, in either order; the run
continues. -/
theorem ingestion_skips_malformed (e1 e2 : RawAnniversary) (a : Anniversary)
    (h1 : e1.lunar_day = none)
    (h2 : processAnniversaryEntry e2 = some a) :
    loadAnniversariesConfig [e1, e2] = ([a], 1) ∧
      loadAnniversariesConfig [e2, e1] = ([a], 1) := by
  have hn := processAnniversaryEntry_none h1
  constructor
  · simp [loadAnniversariesConfig, hn, h2]
  · simp [loadAnniversariesConfig, hn, h2]

/-- Claim C8, witness: a malformed entry (no `lunar_day`) next to a
well-formed one yields exactly the one record and one warning. -/
theorem ingestion_skips_malformed_witness :
    loadAnniversariesConfig
        [⟨some "Grandfather", none, some 3, none, none⟩,
         ⟨some "Grandmother", some "祖母", some 3, some 15, some "memorial"⟩] =
      ([⟨"Grandmother", "祖母", 3, 15, "memorial"⟩], 1) ∧
      loadAnniversariesConfig
        [⟨some "Grandmother", some "祖母", some 3, some 15, some "memorial"⟩,
         ⟨some "Grandfather", none, some 3, none, none⟩] =
      ([⟨"Grandmother", "祖母", 3, 15, "memorial"⟩], 1) :=
  ingestion_skips_malformed _ _ _ rfl rfl

/-- A successful anniversary generation produces one event per record,
titled by the record, in record order. -/
theorem generateAnniversaryEvents_ok_names {tbl : LunarTable} {y : Int}
    {anns : List Anniversary} {evs : List (String × Event)}
    (h : generateAnniversaryEvents tbl y anns = .ok evs) :
    evs.map (fun p => p.2.name) = anns.map anniversaryTitle := by
  induction anns generalizing evs with
  | nil =>
    obtain rfl : evs = [] := by simpa [generateAnniversaryEvents] using h.symm
    rfl
  | cons a rest ih =>
    unfold generateAnniversaryEvents at h
    cases hd : lunarToSolar tbl a.lunar_month a.lunar_day y with
    | error e => simp [hd] at h
    | ok date =>
      simp only [hd] at h
      cases hr : generateAnniversaryEvents tbl y rest with
      | error e => simp [hr] at h
      | ok revs =>
        simp only [hr] at h
        obtain rfl := ((Except.ok.injEq _ _).mp h)
        simp [createEvent, ih hr]

/-- Claim C9: whenever the full generation succeeds, the events come in
a fixed deterministic order: Qingming, Winter Solstice, Ghost Month,
Chinese New Year's Eve, then one anniversary event per record in config
order. -/
theorem calendar_event_order (tbl : LunarTable) (y : Int) (anns : List Anniversary)
    (hok : (generateCalendars tbl y anns).isOk = true) :
    (generateCalendars tbl y anns).map (fun evs => evs.map fun p => p.2.name) =
      .ok (["Qingming Festival 清明节", "Winter Solstice 冬至",
            "Ghost Month 鬼月", "Chinese New Year's Eve 除夕"] ++
           anns.map anniversaryTitle) := by
  unfold generateCalendars at hok ⊢
  cases hl : generateLunarCalendarEvents tbl y with
  | error e => rw [hl] at hok; simp [Except.isOk, Except.toBool] at hok
  | ok lunar =>
    rw [hl] at hok
    simp only [hl]
    cases ha : generateAnniversaryEvents tbl y anns with
    | error e => rw [ha] at hok; simp [Except.isOk, Except.toBool] at hok
    | ok annEvents =>
      simp only [ha]
      have hln : lunar.map (fun p => p.2.name) =
          ["Ghost Month 鬼月", "Chinese New Year's Eve 除夕"] := by
        obtain ⟨gs, ge, ny, _, _, _, _, rfl⟩ := generateLunarCalendarEvents_ok hl
        rfl
      have han := generateAnniversaryEvents_ok_names ha
      simp [Except.map, List.map_append, hln, han, generateSolarCalendarEvents, createEvent]

/-- Claim C9, witness: the reference table, year 2024, and one
anniversary record produce exactly the fixed order of titles. -/
theorem calendar_event_order_witness :
    (generateCalendars refTable 2024 [⟨"Grandmother", "", 7, 15, ""⟩]).map
        (fun evs => evs.map fun p => p.2.name) =
      .ok (["Qingming Festival 清明节", "Winter Solstice 冬至",
            "Ghost Month 鬼月", "Chinese New Year's Eve 除夕"] ++
           [(⟨"Grandmother", "", 7, 15, ""⟩ : Anniversary)].map anniversaryTitle) :=
  calendar_event_order refTable 2024 [⟨"Grandmother", "", 7, 15, ""⟩] (by rfl)

/-- Claim C10: for every target year the Winter Solstice event is
placed on the fixed solar date December 22 of that year; the
astronomical solstice date is not computed. -/
theorem winter_solstice_fixed_date (y : Int) :
    ∃ p, (generateSolarCalendarEvents y)[1]? = some p ∧
      p.1 = "winter_solstice.ics" ∧ p.2.name = "Winter Solstice 冬至" ∧
      p.2.begin = toOrd ⟨y, 12, 22⟩ :=
  ⟨_, rfl, rfl, rfl, rfl⟩
